import Mathlib

/-!
Shallow embedding of the GPS tracker gateway
(`server/app/protocol_parser.py` and `server/app/tcp_server.py`).

Bytes are modelled as `List Nat` whose entries are below 256; machine
arithmetic uses explicit `% 2 ^ w`.  Python code that catches exceptions and
returns `None` is modelled with `Option`; `logger` calls have no observable
effect and are omitted.  Latitude/longitude, produced in the source by float
division by 1 800 000.0, are modelled exactly in `ℚ` (the concrete values the
claims mention, such as 1800000/1800000 = 1.0, are exact in binary floating
point as well).
-/

namespace GPS

/-- One shift step of CRC-ITU: if the LSB is set, shift right and xor 0x8408,
else shift right (body of the inner `for _ in range(8)` loop of
`ProtocolParser.calculate_crc`). -/
def crcRound (c : Nat) : Nat :=
  if c % 2 = 1 then Nat.xor (c / 2) 0x8408 else c / 2

/-- Iterate `crcRound` n times. -/
def crcShift : Nat → Nat → Nat
  | c, 0 => c
  | c, n + 1 => crcShift (crcRound c) n

/-- Process one byte: xor into the register, then eight rounds. -/
def crcByte (c b : Nat) : Nat := crcShift (Nat.xor c b) 8

/-- `ProtocolParser.calculate_crc`: seed 0xFFFF, per-byte update, final xor
0xFFFF. -/
def calculate_crc (data : List Nat) : Nat :=
  Nat.xor (data.foldl crcByte 0xFFFF) 0xFFFF

/-- Uppercase hexadecimal digit for `n < 16` (as in Python format `X`). -/
def hexDigit (n : Nat) : Char :=
  if n < 10 then Char.ofNat (48 + n) else Char.ofNat (55 + n)

/-- Python `f"\x7bb:02X\x7d"` for a byte `b < 256`: exactly two uppercase hex
digits. -/
def byteHex (b : Nat) : String :=
  String.mk [hexDigit (b / 16 % 16), hexDigit (b % 16)]

/-- `''.join(f"\x7bb:02X\x7d" for b in bs)`. -/
def bytesHex (bs : List Nat) : String :=
  String.join (bs.map byteHex)

/-- Big-endian 16-bit read at index `i` (`struct.unpack(">H", ...)`); callers
perform the length checks that make both indices in range, mirroring the
source where an out-of-range slice would raise and be caught. -/
def u16at (bs : List Nat) (i : Nat) : Nat :=
  bs.getD i 0 * 256 + bs.getD (i + 1) 0

/-- Big-endian 32-bit read at index `i` (`struct.unpack(">I", ...)`). -/
def u32at (bs : List Nat) (i : Nat) : Nat :=
  ((bs.getD i 0 * 256 + bs.getD (i + 1) 0) * 256 + bs.getD (i + 2) 0) * 256
    + bs.getD (i + 3) 0

/-- Big-endian 16-bit write (`struct.pack(">H", n)`); all call sites guarantee
`n < 2 ^ 16` (the source would raise `struct.error` otherwise). -/
def pack16 (n : Nat) : List Nat := [n / 256 % 256, n % 256]

/-- Big-endian 32-bit write (`struct.pack(">I", n)`); call sites guarantee
`n < 2 ^ 32`. -/
def pack32 (n : Nat) : List Nat :=
  [n / 2 ^ 24 % 256, n / 2 ^ 16 % 256, n / 256 % 256, n % 256]

/-- START marker bytes 0x78 0x78. -/
def START_BIT : List Nat := [0x78, 0x78]

/-- STOP marker bytes 0x0D 0x0A. -/
def STOP_BIT : List Nat := [0x0d, 0x0a]

/-- Packet type constants from `ProtocolParser`. -/
def PACKET_LOGIN : Nat := 0x01
def PACKET_LOCATION : Nat := 0x12
def PACKET_HEARTBEAT : Nat := 0x13
def PACKET_STRING_INFO : Nat := 0x15
def PACKET_ALARM : Nat := 0x16
def PACKET_COMMAND : Nat := 0x80

/-- Number of days in a month, as Python `datetime` validates them. -/
def daysInMonth (y m : Nat) : Nat :=
  if m = 2 then
    (if y % 4 = 0 ∧ (y % 100 ≠ 0 ∨ y % 400 = 0) then 29 else 28)
  else if m = 4 ∨ m = 6 ∨ m = 9 ∨ m = 11 then 30
  else 31

/-- Whether `datetime(y, m, d, h, mi, s)` succeeds (the year is always in
range since the source computes `2000 + byte`). -/
def isValidDateTime (y m d h mi s : Nat) : Bool :=
  decide (1 ≤ m ∧ m ≤ 12 ∧ 1 ≤ d ∧ d ≤ daysInMonth y m ∧ h ≤ 23 ∧ mi ≤ 59
    ∧ s ≤ 59)

/-- Payload of a parsed login dict. -/
structure LoginData where
  imei : String
  serialNumber : Nat
  deriving DecidableEq, Repr

/-- Payload of a parsed location dict.  `timestampValid = false` records that
the source substituted `datetime.utcnow()` for an invalid device timestamp;
the raw device date fields are kept alongside. -/
structure LocationData where
  year : Nat
  month : Nat
  day : Nat
  hour : Nat
  minute : Nat
  second : Nat
  timestampValid : Bool
  latitude : ℚ
  longitude : ℚ
  speed : Nat
  course : Nat
  satellites : Nat
  gpsValid : Bool
  serialNumber : Nat
  deriving DecidableEq, Repr

/-- Payload of a parsed heartbeat dict. -/
structure HeartbeatData where
  voltageLevel : Nat
  batteryPercent : Nat
  batteryStatus : String
  gsmSignal : Nat
  signalStrength : String
  signalBars : Nat
  gpsTracking : Bool
  accStatus : Bool
  charging : Bool
  alarmStatus : Nat
  serialNumber : Nat
  deriving DecidableEq, Repr

/-- Extra fields an alarm packet adds on top of the location fields; in the
source they are set together under the `len(packet) > alarm_offset` guard. -/
structure AlarmExtra where
  alarmType : String
  accStatus : Bool
  gpsTracking : Bool
  batteryPercent : Nat
  signalBars : Nat
  deriving DecidableEq, Repr

/-- Payload of a parsed 0x15 command-response dict; `content` keeps the raw
content bytes (the source decodes them as ASCII with replacement). -/
structure CommandResponseData where
  serverFlag : Nat
  content : List Nat
  serialNumber : Nat
  deriving DecidableEq, Repr

/-- Result of `ProtocolParser.parse_packet`: the string-tagged dicts of the
source become a tagged variant. -/
inductive Parsed where
  | login (d : LoginData)
  | location (d : LocationData)
  | heartbeat (d : HeartbeatData)
  | alarm (d : LocationData) (extra : Option AlarmExtra)
  | commandResponse (d : CommandResponseData)
  | unknown (protocol : Nat) (raw : List Nat)
  deriving DecidableEq, Repr

/-- The `'protocol'` entry of each parsed dict. -/
def Parsed.protocolNum : Parsed → Nat
  | .login _ => PACKET_LOGIN
  | .location _ => PACKET_LOCATION
  | .heartbeat _ => PACKET_HEARTBEAT
  | .alarm _ _ => PACKET_ALARM
  | .commandResponse _ => PACKET_STRING_INFO
  | .unknown p _ => p

/-- The `'serial_number'` entry where present; an `unknown` dict has none
(the source then falls back to `parsed.get('serial_number', 0)`). -/
def Parsed.serialNumber? : Parsed → Option Nat
  | .login d => some d.serialNumber
  | .location d => some d.serialNumber
  | .heartbeat d => some d.serialNumber
  | .alarm d _ => some d.serialNumber
  | .commandResponse d => some d.serialNumber
  | .unknown _ _ => none

/-- `ProtocolParser.parse_login`: 8 identity bytes rendered as uppercase hex,
then a 2-byte serial. -/
def parse_login (bs : List Nat) : Option Parsed :=
  if bs.length < 15 then none
  else
    some (.login
      { imei := bytesHex ((bs.drop 4).take 8)
        serialNumber := u16at bs 12 })

/-- `ProtocolParser.parse_location`, parameterised by the
`FORCE_SOUTHERN_HEMISPHERE` setting (`true` in `core/config.py`).  Returns the
location fields; used both for 0x12 packets and as the first step of alarm
parsing. -/
def parse_location_core (force : Bool) (bs : List Nat) : Option LocationData :=
  if bs.length < 30 then none
  else
    let year := 2000 + bs.getD 4 0
    let month := bs.getD 5 0
    let day := bs.getD 6 0
    let hour := bs.getD 7 0
    let minute := bs.getD 8 0
    let second := bs.getD 9 0
    let gpsInfo := bs.getD 10 0
    let latRaw := u32at bs 11
    let lonRaw := u32at bs 15
    let speed := bs.getD 19 0
    let courseStatus := u16at bs 20
    let course := courseStatus % 1024
    let latBit := courseStatus / 2 ^ 10 % 2
    let lonBit := courseStatus / 2 ^ 11 % 2
    let gpsReal := courseStatus / 2 ^ 12 % 2
    let latitude0 : ℚ := (latRaw : ℚ) / 1800000
    let longitude0 : ℚ := (lonRaw : ℚ) / 1800000
    let latitude :=
      if latBit = 0 then -latitude0
      else if force ∧ latitude0 > 0 then -latitude0
      else latitude0
    let longitude := if lonBit = 1 then -longitude0 else longitude0
    some
      { year := year, month := month, day := day, hour := hour
        minute := minute, second := second
        timestampValid := isValidDateTime year month day hour minute second
        latitude := latitude, longitude := longitude
        speed := speed, course := course
        satellites := gpsInfo % 16
        gpsValid := gpsReal = 1
        serialNumber := u16at bs (bs.length - 6) }

/-- Wrapper giving `parse_location` the dict shape used by `parse_packet`. -/
def parse_location (force : Bool) (bs : List Nat) : Option Parsed :=
  (parse_location_core force bs).map .location

/-- `BATTERY_LEVELS.get(v, ...)["level"]` with its `"Unknown"` default. -/
def batteryLevelName (v : Nat) : String :=
  match v with
  | 0 => "No Power" | 1 => "Extremely Low" | 2 => "Very Low" | 3 => "Low"
  | 4 => "Medium" | 5 => "High" | 6 => "Very High" | _ => "Unknown"

/-- `BATTERY_LEVELS.get(v, ...)["percent"]` with its default of 50. -/
def batteryLevelPercent (v : Nat) : Nat :=
  match v with
  | 0 => 0 | 1 => 10 | 2 => 25 | 3 => 40 | 4 => 60 | 5 => 80 | 6 => 100
  | _ => 50

/-- `GSM_SIGNAL_LEVELS.get(g, ...)["level"]` with its `"Unknown"` default. -/
def gsmLevelName (g : Nat) : String :=
  match g with
  | 0 => "No signal" | 1 => "Weak" | 2 => "Fair" | 3 => "Good" | 4 => "Strong"
  | _ => "Unknown"

/-- `GSM_SIGNAL_LEVELS.get(g, ...)["bars"]` with its default of 0. -/
def gsmLevelBars (g : Nat) : Nat :=
  match g with
  | 0 => 0 | 1 => 1 | 2 => 2 | 3 => 3 | 4 => 4 | _ => 0

/-- `ProtocolParser.parse_heartbeat`.  (The source also computes `activated`
and `oil_elec_disconnected` from the terminal byte but does not include them
in the returned dict.) -/
def parse_heartbeat (bs : List Nat) : Option Parsed :=
  if bs.length < 15 then none
  else
    let terminalInfo := bs.getD 4 0
    let voltageLevel := bs.getD 5 0
    let gsmSignal := bs.getD 6 0
    let gsmLevel := min gsmSignal 4
    some (.heartbeat
      { voltageLevel := voltageLevel
        batteryPercent := batteryLevelPercent voltageLevel
        batteryStatus := batteryLevelName voltageLevel
        gsmSignal := gsmSignal
        signalStrength := gsmLevelName gsmLevel
        signalBars := gsmLevelBars gsmLevel
        gpsTracking := terminalInfo / 2 ^ 6 % 2 = 1
        accStatus := terminalInfo / 2 % 2 = 1
        charging := terminalInfo / 2 ^ 2 % 2 = 1
        alarmStatus := terminalInfo / 2 ^ 3 % 8
        serialNumber := u16at bs (bs.length - 6) })

/-- Alarm name dictionary of `parse_alarm`, with the `Unknown (0xNN)`
fallback. -/
def alarmName (b : Nat) : String :=
  match b with
  | 0 => "Normal" | 1 => "SOS" | 2 => "Power cut" | 3 => "Shock"
  | 4 => "Enter fence" | 5 => "Exit fence" | 6 => "Over speed"
  | 7 => "Ignition on" | 8 => "Ignition off" | 9 => "AC on" | 10 => "AC off"
  | _ => "Unknown (0x" ++ byteHex b ++ ")"

/-- `ProtocolParser.parse_alarm`: reuse the location parse, retag it as an
alarm, and when the packet is long enough add the status-block fields located
through the LBS length byte. -/
def parse_alarm (force : Bool) (bs : List Nat) : Option Parsed :=
  match parse_location_core force bs with
  | none => none
  | some loc =>
    if bs.length > 23 then
      let lbsLength := bs.getD 22 0
      let statusOffset := 22 + lbsLength
      let alarmOffset := statusOffset + 3
      if bs.length > alarmOffset then
        let terminalInfo := bs.getD statusOffset 0
        some (.alarm loc (some
          { alarmType := alarmName (bs.getD alarmOffset 0)
            accStatus := terminalInfo / 2 % 2 = 1
            gpsTracking := terminalInfo / 2 ^ 6 % 2 = 1
            batteryPercent := batteryLevelPercent (bs.getD (statusOffset + 1) 0)
            signalBars := gsmLevelBars (min (bs.getD (statusOffset + 2) 0) 4) }))
      else some (.alarm loc none)
    else some (.alarm loc none)

/-- `ProtocolParser.parse_command_response` (0x15).  `content_length < 0` in
the source corresponds to `cmdLength < 4` here. -/
def parse_command_response (bs : List Nat) : Option Parsed :=
  if bs.length < 17 then none
  else
    let cmdLength := bs.getD 4 0
    let serverFlag := u32at bs 5
    if cmdLength < 4 then none
    else
      let contentLength := cmdLength - 4
      if bs.length < 9 + contentLength then none
      else
        some (.commandResponse
          { serverFlag := serverFlag
            content := (bs.drop 9).take contentLength
            serialNumber := u16at bs (bs.length - 6) })

/-- `ProtocolParser.parse_packet`: structural validation then dispatch on the
protocol byte.  The CRC comparison in the source only logs on mismatch and
never changes the result, so it is omitted here. -/
def parse_packet (force : Bool) (bs : List Nat) : Option Parsed :=
  if bs.length < 7 then none
  else if bs.take 2 ≠ START_BIT then none
  else if bs.drop (bs.length - 2) ≠ STOP_BIT then none
  else
    let length := bs.getD 2 0
    let protocolNumber := bs.getD 3 0
    if bs.length ≠ length + 5 then none
    else if protocolNumber = PACKET_LOGIN then parse_login bs
    else if protocolNumber = PACKET_LOCATION then parse_location force bs
    else if protocolNumber = PACKET_HEARTBEAT then parse_heartbeat bs
    else if protocolNumber = PACKET_STRING_INFO then parse_command_response bs
    else if protocolNumber = PACKET_ALARM then parse_alarm force bs
    else some (.unknown protocolNumber bs)

/-- `ProtocolParser.create_response`: ACK frame
`78 78 05 proto serial(2) crc(2) 0D 0A`.  `struct.pack` raises (and the
source returns `None`) when the protocol byte or the serial is out of
range. -/
def create_response (packetType serialNumber : Nat) : Option (List Nat) :=
  if packetType < 256 ∧ serialNumber < 65536 then
    let responseData := [5, packetType] ++ pack16 serialNumber
    let crc := calculate_crc responseData
    some (START_BIT ++ responseData ++ pack16 crc ++ STOP_BIT)
  else none

/-- `ProtocolParser.create_command_packet`: outbound 0x80 frame.  `command`
is the command text as code points; `encode("ascii")` raises on values ≥ 128,
`bytearray.append` raises on a length byte ≥ 256, and `struct.pack` raises on
an oversized serial or server flag — all caught in the source, which then
returns `None`. -/
def create_command_packet (command : List Nat) (serialNumber : Nat)
    (serverFlag : Nat := 1) : Option (List Nat) :=
  if command.all (· < 128) ∧ 10 + command.length < 256 ∧ serialNumber < 65536
      ∧ serverFlag < 2 ^ 32 then
    let cmdLength := 4 + command.length
    let packetLength := 10 + command.length
    let data := [packetLength, PACKET_COMMAND, cmdLength] ++ pack32 serverFlag
      ++ command ++ pack16 serialNumber
    let crc := calculate_crc data
    some (START_BIT ++ data ++ pack16 crc ++ STOP_BIT)
  else none

/-- Index of the first occurrence of the two-byte START marker
(`bytearray.find(b"\x78\x78")`), `none` when absent. -/
def findStart : List Nat → Option Nat
  | [] => none
  | a :: rest =>
    if a = 0x78 ∧ rest.headI = 0x78 ∧ rest ≠ [] then some 0
    else (findStart rest).map (· + 1)

/-- `GPSTrackerConnection.process_buffer` as a pure function from the buffer
to the remaining buffer and the list of sliced packets, in dispatch order.
Mirrors the `while len(buffer) >= 7` loop: resynchronise on the START marker
(keeping only the last byte when it is absent), wait until `LEN + 5` bytes
are available, then slice one packet and continue.  `handle_packet` never
touches the buffer, so slicing and handling commute and the sliced packets
are returned for separate handling. -/
def process_buffer (buf : List Nat) : List Nat × List (List Nat) :=
  if h7 : buf.length < 7 then (buf, [])
  else
    match findStart buf with
    | none =>
      -- `if len(self.buffer) > 1` always holds here since the loop guard
      -- requires at least 7 bytes
      (buf.drop (buf.length - 1), [])
    | some i =>
      let b2 := buf.drop i
      if h3 : b2.length < 3 then (b2, [])
      else
        let total := b2.getD 2 0 + 5
        if hlt : b2.length < total then (b2, [])
        else
          let rest := b2.drop total
          have hrest : rest.length < buf.length := by
            have h5 : 5 ≤ total := Nat.le_add_left 5 _
            have hb2 : b2.length = buf.length - i := by simp [b2]
            have hr : rest.length = buf.length - (i + total) := by
              simp [rest, b2]
            omega
          let out := process_buffer rest
          (out.1, b2.take total :: out.2)
termination_by buf.length

/-- A one-shot reply future (`loop.create_future()`): `id` models object
identity of distinct futures, `resolvedReply` models `set_result`. -/
structure FutureF where
  id : Nat
  resolvedReply : Option CommandResponseData
  deriving DecidableEq, Repr

/-- Per-connection state of `GPSTrackerConnection` (socket handles, parser
object and logger omitted; `futureCounter` supplies fresh future
identities). -/
structure Conn where
  deviceImei : Option String
  authenticated : Bool
  buffer : List Nat
  commandSerial : Nat
  pending : Option FutureF
  futureCounter : Nat
  closeStarted : Bool
  deriving DecidableEq, Repr

/-- Connection state right after `__init__`. -/
def initConn : Conn :=
  { deviceImei := none, authenticated := false, buffer := []
    commandSerial := 0xA000, pending := none, futureCounter := 0
    closeStarted := false }

/-- Observable calls a packet handler makes on the database / broadcast
collaborators (the narrow persistence port). -/
inductive Eff where
  | dbUpsertDevice (imei : String)
  | registerDevice (imei : String)
  | dbInsertLocation (d : LocationData)
  | broadcastLocation (d : LocationData)
  | dbHeartbeat (d : HeartbeatData)
  | dbInsertAlarm (d : LocationData) (extra : Option AlarmExtra)
  | broadcastAlarm (d : LocationData) (extra : Option AlarmExtra)
  deriving DecidableEq, Repr

/-- `GPSTrackerConnection.handle_login`: set the identity, mark the session
authenticated, upsert the device row and register with the server. -/
def handle_login (c : Conn) (d : LoginData) : Conn × List Eff :=
  ({ c with deviceImei := some d.imei, authenticated := true },
    [.dbUpsertDevice d.imei, .registerDevice d.imei])

/-- `GPSTrackerConnection.handle_location`: unauthenticated traffic is logged
and returns before any store write; authenticated traffic inserts the row and
broadcasts. -/
def handle_location (c : Conn) (d : LocationData) : Conn × List Eff :=
  if ¬c.authenticated ∨ c.deviceImei = none then (c, [])
  else (c, [.dbInsertLocation d, .broadcastLocation d])

/-- `GPSTrackerConnection.handle_heartbeat` (same authentication guard). -/
def handle_heartbeat (c : Conn) (d : HeartbeatData) : Conn × List Eff :=
  if ¬c.authenticated ∨ c.deviceImei = none then (c, [])
  else (c, [.dbHeartbeat d])

/-- `GPSTrackerConnection.handle_alarm` (same authentication guard). -/
def handle_alarm (c : Conn) (d : LocationData) (extra : Option AlarmExtra) :
    Conn × List Eff :=
  if ¬c.authenticated ∨ c.deviceImei = none then (c, [])
  else (c, [.dbInsertAlarm d extra, .broadcastAlarm d extra])

/-- `GPSTrackerConnection.handle_command_response`: resolve the pending
future when one exists and is not yet done; otherwise only log. -/
def handle_command_response (c : Conn) (d : CommandResponseData) : Conn :=
  match c.pending with
  | some f =>
    if f.resolvedReply = none then
      { c with pending := some { f with resolvedReply := some d } }
    else c
  | none => c

/-- `GPSTrackerConnection.handle_packet`: parse, dispatch to the handler,
then — for every parsed type except `command_response`, which returns early —
synthesize and write an ACK from the parsed protocol and
`parsed.get('serial_number', 0)`.  Result: new connection state, frames
written to the socket, store/broadcast effects. -/
def handle_packet (force : Bool) (c : Conn) (packet : List Nat) :
    Conn × List (List Nat) × List Eff :=
  match parse_packet force packet with
  | none => (c, [], [])
  | some (.commandResponse d) => (handle_command_response c d, [], [])
  | some p =>
    let step : Conn × List Eff :=
      match p with
      | .login d => handle_login c d
      | .location d => handle_location c d
      | .heartbeat d => handle_heartbeat c d
      | .alarm d extra => handle_alarm c d extra
      | _ => (c, [])
    let writes : List (List Nat) :=
      match create_response p.protocolNum ((p.serialNumber?).getD 0) with
      | some r => [r]
      | none => []
    (step.1, writes, step.2)

/-- One socket read delivered to `GPSTrackerConnection.handle`: extend the
buffer, run the framer, handle each sliced packet in order, accumulating
socket writes and store effects. -/
def on_data (force : Bool) (c : Conn) (data : List Nat) :
    Conn × List (List Nat) × List Eff :=
  let buf := c.buffer ++ data
  let out := process_buffer buf
  let step := out.2.foldl
    (fun acc pkt =>
      let r := handle_packet force acc.1 pkt
      (r.1, acc.2.1 ++ r.2.1, acc.2.2 ++ r.2.2))
    ({ c with buffer := out.1 }, ([], []))
  (step.1, step.2.1, step.2.2)

/-- Synchronous prefix of `GPSTrackerConnection.send_command`, up to its
first `await`: increment the 16-bit command serial, build the 0x80 frame —
note the source passes the serial positionally as `serial_number`, so
`server_flag` keeps its default of 1 — and unconditionally install a fresh
pending future.  Returns the new state and the frame (`none` when
`create_command_packet` failed, in which case no future is installed and the
call returns an error dict). -/
def send_command_begin (c : Conn) (command : List Nat) :
    Conn × Option (List Nat) :=
  let serial := (c.commandSerial + 1) % 2 ^ 16
  match create_command_packet command serial with
  | none => ({ c with commandSerial := serial }, none)
  | some packet =>
    ({ c with
        commandSerial := serial
        pending := some { id := c.futureCounter, resolvedReply := none }
        futureCounter := c.futureCounter + 1 },
      some packet)

/-- The registry `TCPServer.device_connections`, a dict from IMEI string to
connection, modelled by its lookup function (values are connection ids into
the server's pool). -/
def Registry := String → Option Nat

/-- `TCPServer.register_device`: plain dict assignment — the only effect is
on the registry entry; no connection is contacted. -/
def register_device (reg : Registry) (imei : String) (cid : Nat) : Registry :=
  fun k => if k = imei then some cid else reg k

/-- `TCPServer.unregister_device`: delete the key when present, whichever
connection asks. -/
def unregister_device (reg : Registry) (imei : String) : Registry :=
  if (reg imei).isSome then fun k => if k = imei then none else reg k
  else reg

/-- Process-wide server state: the registry and the pool of connection
states, indexed by connection id. -/
structure ServerState where
  registry : Registry
  conns : Nat → Conn

/-- Server-level view of a successful login on connection `cid`: the
connection records its identity and authenticates, then
`TCPServer.register_device` swaps the registry entry.  Nothing else in
`handle_login` or `register_device` touches any other connection. -/
def server_handle_login (s : ServerState) (cid : Nat) (imei : String) :
    ServerState :=
  { registry := register_device s.registry imei cid
    conns := fun j =>
      if j = cid then
        { s.conns j with deviceImei := some imei, authenticated := true }
      else s.conns j }

/-- `GPSTrackerConnection.close` at server level: when the connection had an
identity it calls `unregister_device(self.device_imei)` — with no equality
check against the registry's stored connection — marks the device offline in
the store (external) and closes the socket. -/
def server_close_conn (s : ServerState) (cid : Nat) : ServerState :=
  let c := s.conns cid
  { registry :=
      match c.deviceImei with
      | some imei => unregister_device s.registry imei
      | none => s.registry
    conns := fun j => if j = cid then { c with closeStarted := true }
      else s.conns j }

/-! ## Concrete data for the claims -/

/-- Concrete location frame of the claim: raw latitude and longitude both
1 800 000, `course_status = 0x1000` (bit 12 only), serial 1, two filler LBS
bytes, arbitrary CRC (a mismatch is log-only). -/
def locFrameC4 : List Nat :=
  [0x78, 0x78, 0x19, 0x12, 0x19, 1, 1, 0, 0, 0, 0xCB,
   0x00, 0x1B, 0x77, 0x40, 0x00, 0x1B, 0x77, 0x40, 0,
   0x10, 0x00, 0, 0, 0x00, 0x01, 0, 0, 0x0d, 0x0a]

/-- Heartbeat frame with the given status bytes, serial and CRC. -/
def mkHeartbeat (term volt gsm alarm lang serial crc : Nat) : List Nat :=
  START_BIT ++ [10, PACKET_HEARTBEAT, term, volt, gsm, alarm, lang]
    ++ pack16 serial ++ pack16 crc ++ STOP_BIT

/-- The frame produced by `create_response` for in-range arguments. -/
def ackFrame (p s : Nat) : List Nat :=
  START_BIT ++ ([5, p] ++ pack16 s)
    ++ pack16 (calculate_crc ([5, p] ++ pack16 s)) ++ STOP_BIT

/-- Code points of the command text "STATUS#". -/
def statusCmd : List Nat := [0x53, 0x54, 0x41, 0x54, 0x55, 0x53, 0x23]

/-- The parsed value of the claim's concrete location frame. -/
def locC4data : LocationData :=
  { year := 2025, month := 1, day := 1, hour := 0, minute := 0, second := 0
    timestampValid := true, latitude := -1, longitude := 1, speed := 0
    course := 0, satellites := 11, gpsValid := true, serialNumber := 1 }

/-- A connection with identity "X", authenticated, holding an unresolved
pending command waiter (as left by an in-flight `send_command`). -/
def connWithWaiter : Conn :=
  { initConn with
      deviceImei := some "X"
      authenticated := true
      pending := some { id := 0, resolvedReply := none }
      futureCounter := 1 }

/-- Server state in which identity "X" is registered to connection 1, which
holds a pending waiter; connection 2 is a fresh connection. -/
def serverC1 : ServerState :=
  { registry := fun k => if k = "X" then some 1 else none
    conns := fun j => if j = 1 then connWithWaiter else initConn }

/-- Server state in which identity "X" is registered to the newer connection
2, while the superseded connection 1 still believes it owns "X". -/
def serverC6 : ServerState :=
  { registry := fun k => if k = "X" then some 2 else none
    conns := fun j => if j = 1 then
        { initConn with deviceImei := some "X", authenticated := true }
      else initConn }

/-- A well-formed frame with the unknown protocol byte 0x99. -/
def unknownFrame : List Nat :=
  [0x78, 0x78, 0x05, 0x99, 0x00, 0x01, 0x00, 0x00, 0x0d, 0x0a]

/-- The well-formed Login frame of the framing scenarios: LEN 0x0D, identity
bytes 01 23 45 67 89 01 23 45, serial 1 (the CRC bytes are immaterial to
framing and to `parse_login`). -/
def loginFrame : List Nat :=
  [0x78, 0x78, 0x0D, 0x01, 0x01, 0x23, 0x45, 0x67, 0x89, 0x01, 0x23, 0x45,
   0x00, 0x01, 0x00, 0x00, 0x0D, 0x0A]

/-- First 10 bytes of `loginFrame` — the first socket read of the
split-delivery scenario. -/
def loginChunk1 : List Nat :=
  [0x78, 0x78, 0x0D, 0x01, 0x01, 0x23, 0x45, 0x67, 0x89, 0x01]

/-- Remaining 8 bytes of `loginFrame` — the second socket read. -/
def loginChunk2 : List Nat := [0x23, 0x45, 0x00, 0x01, 0x00, 0x00, 0x0D, 0x0A]

/-- Code point of the one-letter command "A". -/
def cmdA : List Nat := [0x41]

/-! ## Helper lemmas -/

/-- Voltage values outside the `BATTERY_LEVELS` table fall back to the
default of 50 percent. -/
lemma batteryLevelPercent_out_of_range (v : Nat) (h : 6 < v) :
    batteryLevelPercent v = 50 := by
  obtain ⟨k, rfl⟩ : ∃ k, v = k + 7 := ⟨v - 7, by omega⟩
  rfl

/-- GSM values of at least 4 clamp to 4 bars (`min(gsm_signal, 4)` then the
table lookup). -/
lemma gsmLevelBars_clamp (g : Nat) (h : 4 ≤ g) : gsmLevelBars (min g 4) = 4 := by
  rw [min_eq_right h]; rfl

/-- `findStart` on a buffer that is headed by the START marker. -/
lemma findStart_of_marker (rest : List Nat) :
    findStart (0x78 :: 0x78 :: rest) = some 0 := by
  simp [findStart]

/-- `findStart` skips a prefix containing no 0x78 byte and finds the marker
heading the suffix. -/
lemma findStart_append (junk buf : List Nat) (hj : ∀ b ∈ junk, b ≠ 0x78)
    (hb : buf.take 2 = [0x78, 0x78]) :
    findStart (junk ++ buf) = some junk.length := by
  induction junk with
  | nil =>
    match buf, hb with
    | a :: b :: rest, hb =>
      simp only [List.take, List.cons.injEq] at hb
      obtain ⟨rfl, rfl, -⟩ := hb
      simpa using findStart_of_marker rest
  | cons a junk ih =>
    have ha : a ≠ 0x78 := hj a (by simp)
    have ih := ih (fun b hbmem => hj b (by simp [hbmem]))
    simp [findStart, ha, ih]

/-- Unfolding of `parse_location_core` on a long-enough buffer. -/
lemma parse_location_core_eq (force : Bool) (bs : List Nat)
    (h30 : ¬bs.length < 30) :
    parse_location_core force bs = some
      { year := 2000 + bs.getD 4 0, month := bs.getD 5 0, day := bs.getD 6 0
        hour := bs.getD 7 0, minute := bs.getD 8 0, second := bs.getD 9 0
        timestampValid := isValidDateTime (2000 + bs.getD 4 0) (bs.getD 5 0)
          (bs.getD 6 0) (bs.getD 7 0) (bs.getD 8 0) (bs.getD 9 0)
        latitude :=
          if u16at bs 20 / 2 ^ 10 % 2 = 0 then -((u32at bs 11 : ℚ) / 1800000)
          else if force ∧ ((u32at bs 11 : ℚ) / 1800000) > 0 then
            -((u32at bs 11 : ℚ) / 1800000)
          else (u32at bs 11 : ℚ) / 1800000
        longitude :=
          if u16at bs 20 / 2 ^ 11 % 2 = 1 then -((u32at bs 15 : ℚ) / 1800000)
          else (u32at bs 15 : ℚ) / 1800000
        speed := bs.getD 19 0, course := u16at bs 20 % 1024
        satellites := bs.getD 10 0 % 16
        gpsValid := decide (u16at bs 20 / 2 ^ 12 % 2 = 1)
        serialNumber := u16at bs (bs.length - 6) } := by
  unfold parse_location_core
  rw [if_neg h30]

/-! ## Claims -/

/-- C4: for every decoded Location packet, bits 0–9 of `course_status` are
the course, bit 10 = 0 negates the latitude (South), bit 11 = 1 negates the
longitude (West), and bit 12 sets `gps_valid`; in particular raw
lat = lon = 1 800 000 with `course_status = 0x1000` decodes to `lat = -1`,
`lon = +1`, `gps_valid = true`, `course = 0` (under the deployed
`FORCE_SOUTHERN_HEMISPHERE = true`, and the general part holds for either
setting). -/
theorem location_course_status_bits :
    (∀ (force : Bool) (bs : List Nat), ¬bs.length < 30 →
      ∃ loc, parse_location_core force bs = some loc ∧
        loc.course = u16at bs 20 % 1024 ∧
        (loc.gpsValid = true ↔ u16at bs 20 / 2 ^ 12 % 2 = 1) ∧
        (u16at bs 20 / 2 ^ 10 % 2 = 0 →
          loc.latitude = -((u32at bs 11 : ℚ) / 1800000)) ∧
        (u16at bs 20 / 2 ^ 11 % 2 = 1 →
          loc.longitude = -((u32at bs 15 : ℚ) / 1800000)))
    ∧ parse_packet true locFrameC4 = some (.location
        { year := 2025, month := 1, day := 1, hour := 0, minute := 0,
          second := 0, timestampValid := true, latitude := -1, longitude := 1,
          speed := 0, course := 0, satellites := 11, gpsValid := true,
          serialNumber := 1 }) := by
  constructor
  · intro force bs h30
    refine ⟨_, parse_location_core_eq force bs h30, rfl, by simp, ?_, ?_⟩
    · intro h0
      simp only [if_pos h0]
    · intro h1
      simp only [if_pos h1]
  · rw [show parse_packet true locFrameC4
        = (parse_location_core true locFrameC4).map Parsed.location from rfl,
      parse_location_core_eq true locFrameC4 (by decide)]
    simp only [Option.map_some', Option.some.injEq, Parsed.location.injEq,
      LocationData.mk.injEq]
    refine ⟨by decide, by decide, by decide, by decide, by decide, by decide,
      by decide, ?_, ?_, by decide, by decide, by decide, by decide,
      by decide⟩
    · rw [if_pos (by decide),
        show u32at locFrameC4 11 = 1800000 from by decide]
      norm_num
    · rw [if_neg (by decide),
        show u32at locFrameC4 15 = 1800000 from by decide]
      norm_num

/-- Witness for the general part of the C4 theorem at the concrete frame. -/
theorem location_course_status_bits_witness :
    ∃ loc, parse_location_core true locFrameC4 = some loc ∧
      loc.course = u16at locFrameC4 20 % 1024 ∧
      (loc.gpsValid = true ↔ u16at locFrameC4 20 / 2 ^ 12 % 2 = 1) ∧
      (u16at locFrameC4 20 / 2 ^ 10 % 2 = 0 →
        loc.latitude = -((u32at locFrameC4 11 : ℚ) / 1800000)) ∧
      (u16at locFrameC4 20 / 2 ^ 11 % 2 = 1 →
        loc.longitude = -((u32at locFrameC4 15 : ℚ) / 1800000)) :=
  location_course_status_bits.1 true locFrameC4 (by decide)

/-- C10: `parse_packet` always returns a parsed value or `none` (the source
catches every exception): short buffers, missing markers, length mismatches
and truncated bodies yield `none`; a heartbeat voltage level outside 0–6
maps to `battery_percent = 50` and a GSM value of 4 or more clamps to 4
bars. -/
theorem parse_packet_total_and_clamps :
    (∀ (force : Bool) (bs : List Nat),
      parse_packet force bs = none ∨ ∃ p, parse_packet force bs = some p)
    ∧ (∀ term volt gsm alarm lang serial crc : Nat,
      ∃ hb, parse_packet true (mkHeartbeat term volt gsm alarm lang serial crc)
          = some (.heartbeat hb)
        ∧ (6 < volt → hb.batteryPercent = 50)
        ∧ (4 ≤ gsm → hb.signalBars = 4))
    ∧ parse_packet true [] = none
    ∧ parse_packet true [1, 2, 3, 4, 5, 6, 7] = none
    ∧ parse_packet true [0x78, 0x78, 9, 0x12, 0, 0, 0, 0x0d, 0x0a] = none
    ∧ parse_packet true [0x78, 0x78, 5, 0x12, 0, 1, 0, 0, 0x0d, 0x0a]
        = none := by
  refine ⟨?_, ?_, by decide, by decide, by decide, by decide⟩
  · intro force bs
    cases h : parse_packet force bs with
    | none => exact Or.inl rfl
    | some p => exact Or.inr ⟨p, rfl⟩
  · intro term volt gsm alarm lang serial crc
    have hp : parse_packet true (mkHeartbeat term volt gsm alarm lang serial crc)
        = some (.heartbeat
          { voltageLevel := volt
            batteryPercent := batteryLevelPercent volt
            batteryStatus := batteryLevelName volt
            gsmSignal := gsm
            signalStrength := gsmLevelName (min gsm 4)
            signalBars := gsmLevelBars (min gsm 4)
            gpsTracking := decide (term / 2 ^ 6 % 2 = 1)
            accStatus := decide (term / 2 % 2 = 1)
            charging := decide (term / 2 ^ 2 % 2 = 1)
            alarmStatus := term / 2 ^ 3 % 8
            serialNumber :=
              u16at (mkHeartbeat term volt gsm alarm lang serial crc) 9 }) :=
      rfl
    refine ⟨_, hp, ?_, ?_⟩
    · intro hv
      exact batteryLevelPercent_out_of_range volt hv
    · intro hg
      exact gsmLevelBars_clamp gsm hg

/-- Witness for the C10 theorem: totality at a concrete buffer and the
clamping at a heartbeat with voltage 7 and GSM 200. -/
theorem parse_packet_total_and_clamps_witness :
    (parse_packet true locFrameC4 = none
      ∨ ∃ p, parse_packet true locFrameC4 = some p)
    ∧ ∃ hb, parse_packet true (mkHeartbeat 0 7 200 0 0 1 0)
        = some (.heartbeat hb)
      ∧ hb.batteryPercent = 50 ∧ hb.signalBars = 4 := by
  refine ⟨parse_packet_total_and_clamps.1 true locFrameC4, ?_⟩
  obtain ⟨hb, h1, h2, h3⟩ :=
    parse_packet_total_and_clamps.2.1 0 7 200 0 0 1 0
  exact ⟨hb, h1, h2 (by decide), h3 (by decide)⟩

/-- `create_response` succeeds on a byte protocol and 16-bit serial. -/
lemma create_response_eq (p s : Nat) (hp : p < 256) (hs : s < 65536) :
    create_response p s = some (ackFrame p s) := by
  unfold create_response ackFrame
  rw [if_pos ⟨hp, hs⟩]

/-- Unfolding of `parse_packet` down to the protocol dispatch once the
structural checks pass. -/
lemma parse_packet_eq_dispatch (force : Bool) (bs : List Nat)
    (h7 : ¬bs.length < 7) (hstart : bs.take 2 = START_BIT)
    (hstop : bs.drop (bs.length - 2) = STOP_BIT)
    (hlen : bs.length = bs.getD 2 0 + 5) :
    parse_packet force bs =
      if bs.getD 3 0 = PACKET_LOGIN then parse_login bs
      else if bs.getD 3 0 = PACKET_LOCATION then parse_location force bs
      else if bs.getD 3 0 = PACKET_HEARTBEAT then parse_heartbeat bs
      else if bs.getD 3 0 = PACKET_STRING_INFO then parse_command_response bs
      else if bs.getD 3 0 = PACKET_ALARM then parse_alarm force bs
      else some (.unknown (bs.getD 3 0) bs) := by
  unfold parse_packet
  rw [if_neg h7, if_neg (not_ne_iff.mpr hstart), if_neg (not_ne_iff.mpr hstop),
    if_neg (not_ne_iff.mpr hlen)]

/-- C5 counterexample: the ACK frame for protocol 0x01 (Login) and serial 1
is built, but decoding it yields `none` — its 10 bytes are fewer than
`parse_login`'s minimum of 15 — not a parsed packet with that protocol and
serial. -/
theorem ack_of_login_decodes_to_none :
    (create_response 0x01 1).isSome = true
    ∧ parse_packet true ((create_response 0x01 1).getD []) = none := by
  decide

/-- C5 amended: for every protocol byte and 16-bit serial the ACK encoder
produces a frame, but decoding that frame yields `none` whenever the
protocol is one of the known kinds (0x01, 0x12, 0x13, 0x15, 0x16 — the
10-byte ACK is below each sub-parser's minimum length), and for any other
protocol byte an `unknown` value carrying the protocol but no serial. -/
theorem ack_decode_roundtrip_behavior :
    ∀ (force : Bool) (p s : Nat), p < 256 → s < 65536 →
      ∃ ack, create_response p s = some ack
        ∧ ((p = 0x01 ∨ p = 0x12 ∨ p = 0x13 ∨ p = 0x15 ∨ p = 0x16) →
            parse_packet force ack = none)
        ∧ (p ≠ 0x01 → p ≠ 0x12 → p ≠ 0x13 → p ≠ 0x15 → p ≠ 0x16 →
            parse_packet force ack = some (.unknown p ack)) := by
  intro force p s hp hs
  refine ⟨ackFrame p s, create_response_eq p s hp hs, ?_, ?_⟩
  · rintro (rfl | rfl | rfl | rfl | rfl) <;> rfl
  · intro h1 h2 h3 h4 h5
    rw [parse_packet_eq_dispatch force (ackFrame p s)
      (by rw [show (ackFrame p s).length = 10 from rfl]; omega) rfl rfl rfl]
    rw [if_neg (by simpa [PACKET_LOGIN] using h1),
      if_neg (by simpa [PACKET_LOCATION] using h2),
      if_neg (by simpa [PACKET_HEARTBEAT] using h3),
      if_neg (by simpa [PACKET_STRING_INFO] using h4),
      if_neg (by simpa [PACKET_ALARM] using h5)]
    rfl

/-- Witness for the C5 amended theorem at protocol 0x13, serial 9. -/
theorem ack_decode_roundtrip_behavior_witness :
    ∃ ack, create_response 0x13 9 = some ack
      ∧ ((0x13 = 0x01 ∨ 0x13 = 0x12 ∨ 0x13 = 0x13 ∨ 0x13 = 0x15
          ∨ 0x13 = 0x16) → parse_packet true ack = none)
      ∧ ((0x13 : Nat) ≠ 0x01 → (0x13 : Nat) ≠ 0x12 → (0x13 : Nat) ≠ 0x13 →
          (0x13 : Nat) ≠ 0x15 → (0x13 : Nat) ≠ 0x16 →
          parse_packet true ack = some (.unknown 0x13 ack)) :=
  ack_decode_roundtrip_behavior true 0x13 9 (by decide) (by decide)

/-- C3 counterexample: the first command sent on a fresh connection produces
a frame whose 4-byte server_flag field (bytes 5–8) holds 1, not 0xA001; the
incremented counter 0xA001 is instead found in the 2-byte serial field
(bytes 16–17 for the 7-byte content "STATUS#"). -/
theorem first_command_server_flag_is_one :
    ((send_command_begin initConn statusCmd).2).isSome = true
    ∧ u32at (((send_command_begin initConn statusCmd).2).getD []) 5 = 1
    ∧ u16at (((send_command_begin initConn statusCmd).2).getD []) 16 = 0xA001
    ∧ (1 : Nat) ≠ 0xA001 := by
  decide

/-- C3 amended: the per-connection counter starts at 0xA000 and each
`send_command` increments it by one (mod 2^16) and places it in the 2-byte
serial field of the 0x80 frame; the 4-byte server_flag field is the constant
1 (the source passes the counter positionally as `serial_number`, leaving
`server_flag` at its default); `cmd_len = 4 + |content|` and
`LEN = 10 + |content|` as stated. -/
theorem send_command_serial_field_carries_counter :
    initConn.commandSerial = 0xA000
    ∧ ∀ (c : Conn) (cmd : List Nat), cmd.all (· < 128) = true →
        10 + cmd.length < 256 →
        ∃ frame crc2,
          (send_command_begin c cmd).2 = some frame
          ∧ (send_command_begin c cmd).1.commandSerial
              = (c.commandSerial + 1) % 2 ^ 16
          ∧ frame = [0x78, 0x78, 10 + cmd.length, 0x80, 4 + cmd.length,
                0, 0, 0, 1]
              ++ cmd ++ pack16 ((c.commandSerial + 1) % 2 ^ 16) ++ crc2
              ++ [0x0d, 0x0a] := by
  refine ⟨rfl, ?_⟩
  intro c cmd hall hlen
  have hser : (c.commandSerial + 1) % 2 ^ 16 < 65536 :=
    Nat.mod_lt _ (by norm_num)
  have hccp : create_command_packet cmd ((c.commandSerial + 1) % 2 ^ 16)
      = some (START_BIT
          ++ ([10 + cmd.length, PACKET_COMMAND, 4 + cmd.length] ++ pack32 1
            ++ cmd ++ pack16 ((c.commandSerial + 1) % 2 ^ 16))
          ++ pack16 (calculate_crc
            ([10 + cmd.length, PACKET_COMMAND, 4 + cmd.length] ++ pack32 1
              ++ cmd ++ pack16 ((c.commandSerial + 1) % 2 ^ 16)))
          ++ STOP_BIT) := by
    unfold create_command_packet
    rw [if_pos ⟨hall, hlen, hser, by norm_num⟩]
  simp only [send_command_begin, hccp]
  refine ⟨_, pack16 (calculate_crc
      ([10 + cmd.length, PACKET_COMMAND, 4 + cmd.length] ++ pack32 1
        ++ cmd ++ pack16 ((c.commandSerial + 1) % 2 ^ 16))), rfl, trivial, ?_⟩
  simp [START_BIT, STOP_BIT, pack32, PACKET_COMMAND, List.append_assoc]

/-- Witness for the C3 amended theorem at a fresh connection and the
"STATUS#" command. -/
theorem send_command_serial_field_carries_counter_witness :
    ∃ frame crc2,
      (send_command_begin initConn statusCmd).2 = some frame
      ∧ (send_command_begin initConn statusCmd).1.commandSerial
          = (initConn.commandSerial + 1) % 2 ^ 16
      ∧ frame = [0x78, 0x78, 10 + statusCmd.length, 0x80,
            4 + statusCmd.length, 0, 0, 0, 1]
          ++ statusCmd
          ++ pack16 ((initConn.commandSerial + 1) % 2 ^ 16) ++ crc2
          ++ [0x0d, 0x0a] :=
  send_command_serial_field_carries_counter.2 initConn statusCmd (by decide)
    (by decide)

/-- `create_command_packet` succeeds on ASCII content of bounded length and
an in-range serial, with `server_flag` left at its default of 1. -/
lemma create_command_packet_eq (cmd : List Nat) (serial : Nat)
    (hall : cmd.all (· < 128) = true) (hlen : 10 + cmd.length < 256)
    (hser : serial < 65536) :
    create_command_packet cmd serial = some (START_BIT
      ++ ([10 + cmd.length, PACKET_COMMAND, 4 + cmd.length] ++ pack32 1
        ++ cmd ++ pack16 serial)
      ++ pack16 (calculate_crc
        ([10 + cmd.length, PACKET_COMMAND, 4 + cmd.length] ++ pack32 1
          ++ cmd ++ pack16 serial))
      ++ STOP_BIT) := by
  unfold create_command_packet
  rw [if_pos ⟨hall, hlen, hser, by norm_num⟩]

/-- Decoding the concrete location frame. -/
lemma parse_locFrameC4 :
    parse_packet true locFrameC4 = some (.location locC4data) := by
  rw [show parse_packet true locFrameC4
      = (parse_location_core true locFrameC4).map Parsed.location from rfl,
    parse_location_core_eq true locFrameC4 (by decide)]
  simp only [Option.map_some', Option.some.injEq, Parsed.location.injEq,
    LocationData.mk.injEq, locC4data]
  refine ⟨by decide, by decide, by decide, by decide, by decide, by decide,
    by decide, ?_, ?_, by decide, by decide, by decide, by decide,
    by decide⟩
  · rw [if_pos (by decide),
      show u32at locFrameC4 11 = 1800000 from by decide]
    norm_num
  · rw [if_neg (by decide),
      show u32at locFrameC4 15 = 1800000 from by decide]
    norm_num

/-- Pointwise behaviour of `unregister_device`: the named key reads back
`none`, every other key is untouched — in both the present and absent
cases of the source's `if imei in self.device_connections`. -/
lemma unregister_device_apply (reg : Registry) (imei k : String) :
    unregister_device reg imei k = if k = imei then none else reg k := by
  unfold unregister_device
  by_cases h : (reg imei).isSome
  · rw [if_pos h]
  · rw [if_neg h]
    by_cases hk : k = imei
    · subst hk
      simp [Option.not_isSome_iff_eq_none.mp h]
    · rw [if_neg hk]

/-- C1 counterexample: connection 2 logs in with the identity already
registered to connection 1.  The registry entry swaps to connection 2, but
connection 1 is left byte-for-byte unchanged: it is not signalled to
terminate (`closeStarted` stays false) and its pending waiter is still
unresolved — nothing fails it with `Superseded` (no such error exists in the
code). -/
theorem register_leaves_displaced_connection_untouched :
    (server_handle_login serverC1 2 "X").registry "X" = some 2
    ∧ (server_handle_login serverC1 2 "X").conns 1 = serverC1.conns 1
    ∧ ((server_handle_login serverC1 2 "X").conns 1).closeStarted = false
    ∧ ((server_handle_login serverC1 2 "X").conns 1).pending
        = some { id := 0, resolvedReply := none } := by
  refine ⟨?_, ?_, ?_, ?_⟩ <;> rfl

/-- C1 amended: `register_device` (reached through `handle_login`) swaps the
registry entry to the new connection, and that is its only effect — every
connection other than the one logging in, including any displaced one, keeps
exactly its previous state; no termination signal is sent and no waiter is
failed. -/
theorem register_swaps_without_signaling :
    ∀ (s : ServerState) (cid : Nat) (imei : String) (j : Nat), j ≠ cid →
      (server_handle_login s cid imei).registry imei = some cid
      ∧ (server_handle_login s cid imei).conns j = s.conns j := by
  intro s cid imei j hj
  constructor
  · simp [server_handle_login, register_device]
  · simp [server_handle_login, hj]

/-- Witness for the C1 amended theorem at the concrete supersede scenario. -/
theorem register_swaps_without_signaling_witness :
    (server_handle_login serverC1 2 "X").registry "X" = some 2
    ∧ (server_handle_login serverC1 2 "X").conns 1 = serverC1.conns 1 :=
  register_swaps_without_signaling serverC1 2 "X" 1 (by decide)

/-- C6 counterexample: the superseded connection 1 closes; its
`unregister_device(imei)` call takes no connection argument and deletes the
entry unconditionally, so the newer connection 2's registry entry for "X" is
removed rather than left intact. -/
theorem superseded_close_removes_newer_entry :
    serverC6.registry "X" = some 2
    ∧ (serverC6.conns 1).deviceImei = some "X"
    ∧ (server_close_conn serverC6 1).registry "X" = none := by
  refine ⟨rfl, rfl, rfl⟩

/-- C6 amended: `unregister_device` is idempotent, but it removes the entry
unconditionally whenever the identity is present — it never compares the
stored connection with the caller (it has no connection parameter) — so a
superseded connection's close removes the newer connection's registry
entry. -/
theorem unregister_idempotent_unconditional :
    (∀ (reg : Registry) (imei : String),
      unregister_device (unregister_device reg imei) imei
        = unregister_device reg imei)
    ∧ (∀ (reg : Registry) (imei : String),
      unregister_device reg imei imei = none)
    ∧ (∀ (s : ServerState) (cid : Nat) (imei : String),
      (s.conns cid).deviceImei = some imei →
      (server_close_conn s cid).registry imei = none) := by
  refine ⟨?_, ?_, ?_⟩
  · intro reg imei
    funext k
    rw [unregister_device_apply, unregister_device_apply]
    by_cases hk : k = imei
    · simp [hk]
    · simp [hk]
  · intro reg imei
    rw [unregister_device_apply]
    simp
  · intro s cid imei h
    simp only [server_close_conn, h]
    rw [unregister_device_apply]
    simp

/-- Witness for the C6 amended theorem at the concrete superseded-close
scenario. -/
theorem unregister_idempotent_unconditional_witness :
    unregister_device (unregister_device serverC6.registry "X") "X"
      = unregister_device serverC6.registry "X"
    ∧ unregister_device serverC6.registry "X" "X" = none
    ∧ (server_close_conn serverC6 1).registry "X" = none :=
  ⟨unregister_idempotent_unconditional.1 serverC6.registry "X",
    unregister_idempotent_unconditional.2.1 serverC6.registry "X",
    unregister_idempotent_unconditional.2.2 serverC6 1 "X" rfl⟩

/-- C2 counterexample: a fresh (unauthenticated) connection receives a valid
Location frame.  `handle_location` returns early without store writes, but
`handle_packet` then still synthesizes and writes the ACK for protocol 0x12,
serial 1 — the packet is not dropped silently. -/
theorem unauthenticated_location_gets_ack :
    initConn.authenticated = false
    ∧ (handle_packet true initConn locFrameC4).2.1
        = [(create_response 0x12 1).getD []]
    ∧ (create_response 0x12 1).getD [] ≠ []
    ∧ (handle_packet true initConn locFrameC4).2.2 = [] := by
  refine ⟨rfl, ?_, by decide, ?_⟩ <;> rfl

/-- C2 amended: on an unauthenticated connection, a non-Login packet's
handler performs no store or broadcast effect (the data is dropped), but for
Location, Heartbeat and Alarm packets `handle_packet` still writes the usual
ACK frame to the socket; only a CommandReply produces no ACK. -/
theorem unauthenticated_packets_are_acked :
    ∀ (c : Conn) (bs : List Nat) (p : Parsed), c.authenticated = false →
      parse_packet true bs = some p → (∀ d, p ≠ .login d) →
      (handle_packet true c bs).2.2 = []
      ∧ ((∃ d, p = .location d) ∨ (∃ d, p = .heartbeat d)
          ∨ (∃ d e, p = .alarm d e) →
        (handle_packet true c bs).2.1
          = (create_response p.protocolNum ((p.serialNumber?).getD 0)).toList)
      ∧ ((∃ d, p = .commandResponse d) →
        (handle_packet true c bs).2.1 = []) := by
  intro c bs p hauth hp hnl
  have hw : ∀ (o : Option (List Nat)),
      (match o with
        | some r => [r]
        | none => ([] : List (List Nat))) = o.toList := by
    intro o
    cases o <;> rfl
  rcases p with d | d | d | ⟨d, e⟩ | d | ⟨pr, raw⟩
  · exact absurd rfl (hnl d)
  · refine ⟨?_, ?_, ?_⟩ <;>
      simp [handle_packet, hp, handle_location, hauth, hw]
  · refine ⟨?_, ?_, ?_⟩ <;>
      simp [handle_packet, hp, handle_heartbeat, hauth, hw]
  · refine ⟨?_, ?_, ?_⟩ <;>
      simp [handle_packet, hp, handle_alarm, hauth, hw]
  · refine ⟨?_, ?_, ?_⟩ <;>
      simp [handle_packet, hp, handle_command_response, hauth, hw]
  · refine ⟨?_, ?_, ?_⟩ <;>
      simp [handle_packet, hp, hauth, hw]

/-- Witness for the C2 amended theorem: the unauthenticated Location
scenario. -/
theorem unauthenticated_packets_are_acked_witness :
    (handle_packet true initConn locFrameC4).2.2 = []
    ∧ ((∃ d, Parsed.location locC4data = .location d)
        ∨ (∃ d, Parsed.location locC4data = .heartbeat d)
        ∨ (∃ d e, Parsed.location locC4data = .alarm d e) →
      (handle_packet true initConn locFrameC4).2.1
        = (create_response (Parsed.location locC4data).protocolNum
            (((Parsed.location locC4data).serialNumber?).getD 0)).toList)
    ∧ ((∃ d, Parsed.location locC4data = .commandResponse d) →
      (handle_packet true initConn locFrameC4).2.1 = []) :=
  unauthenticated_packets_are_acked initConn locFrameC4
    (.location locC4data) rfl parse_locFrameC4
    (fun _ h => Parsed.noConfusion h)

/-- C7 counterexample: a frame with unknown protocol byte 0x99 parses to an
`unknown` value and `handle_packet` writes an ACK for it (protocol 0x99,
fallback serial 0) — not "no ACK". -/
theorem unknown_protocol_frame_gets_ack :
    parse_packet true unknownFrame = some (.unknown 0x99 unknownFrame)
    ∧ (handle_packet true initConn unknownFrame).2.1
        = [(create_response 0x99 0).getD []]
    ∧ (create_response 0x99 0).getD [] ≠ [] := by
  decide

/-- C7 amended: a frame whose protocol byte is none of the known kinds
parses to an `unknown` value; `handle_packet` runs no handler (state and
store untouched) but still writes one ACK frame carrying the unknown
protocol byte and the fallback serial 0 (`parsed.get('serial_number', 0)`
— the unknown dict has no serial entry). -/
theorem unknown_protocol_is_acked_serial_zero :
    ∀ (c : Conn) (bs : List Nat) (pr : Nat) (raw : List Nat), pr < 256 →
      parse_packet true bs = some (.unknown pr raw) →
      (handle_packet true c bs).1 = c
      ∧ (handle_packet true c bs).2.2 = []
      ∧ ∃ ack, create_response pr 0 = some ack
          ∧ (handle_packet true c bs).2.1 = [ack] := by
  intro c bs pr raw hpr hp
  refine ⟨?_, ?_, ackFrame pr 0, create_response_eq pr 0 hpr (by norm_num),
    ?_⟩ <;>
    simp [handle_packet, hp, Parsed.protocolNum, Parsed.serialNumber?,
      create_response_eq pr 0 hpr (by norm_num)]

/-- Witness for the C7 amended theorem at the concrete 0x99 frame. -/
theorem unknown_protocol_is_acked_serial_zero_witness :
    (handle_packet true initConn unknownFrame).1 = initConn
    ∧ (handle_packet true initConn unknownFrame).2.2 = []
    ∧ ∃ ack, create_response 0x99 0 = some ack
        ∧ (handle_packet true initConn unknownFrame).2.1 = [ack] :=
  unknown_protocol_is_acked_serial_zero initConn unknownFrame 0x99
    unknownFrame (by decide) (by decide)

/-- C8: the framer discards bytes preceding the START marker, reduces the
buffer to its last byte when no marker is found (the loop runs only with at
least 7 bytes buffered), dispatches a packet only once LEN+5 bytes are
buffered, and a frame delivered in chunks of 10 and 8 bytes is sliced and
parsed exactly once, with no ACK written before the full frame arrives. -/
theorem framer_resync_threshold_split :
    (∀ buf : List Nat, 7 ≤ buf.length → findStart buf = none →
      process_buffer buf = (buf.drop (buf.length - 1), []))
    ∧ (∀ junk buf : List Nat, (∀ b ∈ junk, b ≠ 0x78) →
        buf.take 2 = [0x78, 0x78] → 7 ≤ buf.length →
        process_buffer (junk ++ buf) = process_buffer buf)
    ∧ (∀ buf : List Nat, buf.take 2 = [0x78, 0x78] →
        buf.length < buf.getD 2 0 + 5 → process_buffer buf = (buf, []))
    ∧ loginChunk1 ++ loginChunk2 = loginFrame
    ∧ process_buffer loginChunk1 = (loginChunk1, [])
    ∧ on_data true initConn loginChunk1
        = ({ initConn with buffer := loginChunk1 }, [], [])
    ∧ process_buffer (loginChunk1 ++ loginChunk2) = ([], [loginFrame])
    ∧ parse_packet true loginFrame
        = some (.login { imei := "0123456789012345", serialNumber := 1 })
    ∧ (on_data true { initConn with buffer := loginChunk1 } loginChunk2).2.1
        = [(create_response 0x01 1).getD []] := by
  have hnostart : ∀ buf : List Nat, 7 ≤ buf.length → findStart buf = none →
      process_buffer buf = (buf.drop (buf.length - 1), []) := by
    intro buf h7 hfs
    rw [process_buffer]
    rw [dif_neg (by omega)]
    rw [hfs]
  have hresync : ∀ junk buf : List Nat, (∀ b ∈ junk, b ≠ 0x78) →
      buf.take 2 = [0x78, 0x78] → 7 ≤ buf.length →
      process_buffer (junk ++ buf) = process_buffer buf := by
    intro junk buf hj hb h7
    have h7' : ¬(junk ++ buf).length < 7 := by
      rw [List.length_append]
      omega
    have hfs0 : findStart buf = some 0 := by
      match buf, hb with
      | x :: y :: rest, hb =>
        simp only [List.take, List.cons.injEq] at hb
        obtain ⟨rfl, rfl, -⟩ := hb
        exact findStart_of_marker rest
    conv_lhs => rw [process_buffer]
    conv_rhs => rw [process_buffer]
    rw [dif_neg h7', dif_neg (show ¬buf.length < 7 by omega),
      findStart_append junk buf hj hb, hfs0]
    simp only [List.drop_left, List.drop_zero]
  have hthreshold : ∀ buf : List Nat, buf.take 2 = [0x78, 0x78] →
      buf.length < buf.getD 2 0 + 5 → process_buffer buf = (buf, []) := by
    intro buf hb hlen
    by_cases h7 : buf.length < 7
    · rw [process_buffer, dif_pos h7]
    · have hfs0 : findStart buf = some 0 := by
        match buf, hb with
        | x :: y :: rest, hb =>
          simp only [List.take, List.cons.injEq] at hb
          obtain ⟨rfl, rfl, -⟩ := hb
          exact findStart_of_marker rest
      rw [process_buffer, dif_neg h7, hfs0]
      simp only [List.drop_zero]
      rw [dif_neg (show ¬buf.length < 3 by omega)]
      rw [dif_pos hlen]
  have hchunk1 : process_buffer loginChunk1 = (loginChunk1, []) := by
    simp [process_buffer, findStart, loginChunk1]
  have hwhole : process_buffer (loginChunk1 ++ loginChunk2)
      = ([], [loginFrame]) := by
    simp [process_buffer, findStart, loginChunk1, loginChunk2, loginFrame]
  refine ⟨hnostart, hresync, hthreshold, by decide, hchunk1, ?_, hwhole,
    by decide, ?_⟩
  · have hb1 : initConn.buffer ++ loginChunk1 = loginChunk1 := rfl
    simp only [on_data, hb1, hchunk1]
    rfl
  · have hb2 : ({ initConn with buffer := loginChunk1 } : Conn).buffer
        ++ loginChunk2 = loginChunk1 ++ loginChunk2 := rfl
    simp only [on_data, hb2, hwhole]
    rfl

/-- Witness for the C8 theorem: the no-marker buffer [0,0,0,0,0,0,0],
resynchronisation over the junk prefix [0xAA, 0xBB], and the dispatch
threshold at the 10-byte first chunk (LEN 0x0D needs 18 bytes). -/
theorem framer_resync_threshold_split_witness :
    process_buffer [0, 0, 0, 0, 0, 0, 0] = ([0], [])
    ∧ process_buffer ([0xAA, 0xBB] ++ loginFrame) = process_buffer loginFrame
    ∧ process_buffer loginChunk1 = (loginChunk1, []) := by
  refine ⟨?_, ?_, ?_⟩
  · have h := framer_resync_threshold_split.1 [0, 0, 0, 0, 0, 0, 0]
      (by decide) (by decide)
    simpa using h
  · exact framer_resync_threshold_split.2.1 [0xAA, 0xBB] loginFrame
      (by decide) (by decide) (by decide)
  · exact framer_resync_threshold_split.2.2.1 loginChunk1 (by decide)
      (by decide)

/-- C9 counterexample: two overlapping `send_command` calls (reachable from
the two HTTP dispatch endpoints: each call installs its waiter and then
suspends on `await send_data` before awaiting the reply).  The first call
installs waiter 0; the second call's synchronous prefix then installs waiter
1, silently replacing waiter 0 while it is still unresolved. -/
theorem overlapping_send_command_replaces_unresolved_waiter :
    (send_command_begin initConn cmdA).1.pending
        = some { id := 0, resolvedReply := none }
    ∧ (send_command_begin (send_command_begin initConn cmdA).1 cmdA).1.pending
        = some { id := 1, resolvedReply := none }
    ∧ ({ id := 0, resolvedReply := none } : FutureF)
        ≠ { id := 1, resolvedReply := none } := by
  decide

/-- C9 amended: `pending_reply` is a single slot, so at most one waiter is
ever stored; but `send_command` installs a fresh waiter unconditionally —
it never checks for an existing unresolved one — so a waiter from an
overlapping call is silently replaced rather than protected or failed. -/
theorem send_command_installs_fresh_waiter_unconditionally :
    ∀ (c : Conn) (cmd : List Nat), cmd.all (· < 128) = true →
      10 + cmd.length < 256 →
      (send_command_begin c cmd).1.pending
        = some { id := c.futureCounter, resolvedReply := none }
      ∧ (send_command_begin c cmd).1.futureCounter = c.futureCounter + 1 := by
  intro c cmd hall hlen
  have hccp := create_command_packet_eq cmd ((c.commandSerial + 1) % 2 ^ 16)
    hall hlen (Nat.mod_lt _ (by norm_num))
  simp only [send_command_begin, hccp]
  simp

/-- Witness for the C9 amended theorem at a fresh connection and command
"A". -/
theorem send_command_installs_fresh_waiter_unconditionally_witness :
    (send_command_begin initConn cmdA).1.pending
      = some { id := initConn.futureCounter, resolvedReply := none }
    ∧ (send_command_begin initConn cmdA).1.futureCounter
      = initConn.futureCounter + 1 :=
  send_command_installs_fresh_waiter_unconditionally initConn cmdA
    (by decide) (by decide)

end GPS
